import Mathlib

/-!
Verification of the `compute_areas` calculator of the know-your-home
repository (`src/app.py` and `src/main.py`).

The calculator mixes Python integer arithmetic with IEEE-754 double
arithmetic (`carpet_area * 1.10`, `float(plot_size) * 0.8`,
`base_cost * 1.10`, each followed by Python's `round`, which rounds half
to even).  The embedding models doubles exactly as rational numbers:
`fl` rounds a rational to the nearest 53-bit-mantissa value (round to
nearest, ties to even, with unbounded exponent, which is faithful
throughout the documented input range), `fmul` is double multiplication,
`intToFloat` is Python's int-to-float conversion, and `pyRound` is
Python's `round` on a double.  The decimal literals `1.10` and `0.8` are
represented by the exact rational values of their nearest doubles.
-/

namespace KnowYourHome

/-- Round a rational to the nearest integer, ties to even: the semantics of
Python's `round` on a (finite) float value. -/
def rneInt (x : ℚ) : ℤ :=
  if x - ⌊x⌋ < 1/2 then ⌊x⌋
  else if 1/2 < x - ⌊x⌋ then ⌊x⌋ + 1
  else if 2 ∣ ⌊x⌋ then ⌊x⌋ else ⌊x⌋ + 1

/-- Round a positive rational to the nearest 53-bit floating-point value
(round to nearest, ties to even): scale into the binade given by
`Int.log 2`, round the 53-bit mantissa, scale back. -/
def flPos (q : ℚ) : ℚ :=
  (rneInt (q * (2:ℚ) ^ ((52:ℤ) - Int.log 2 q)) : ℚ)
    * (2:ℚ) ^ (Int.log 2 q - (52:ℤ))

/-- Round a rational to the nearest IEEE-754 double value (unbounded
exponent model). -/
def fl (q : ℚ) : ℚ :=
  if q = 0 then 0
  else if 0 < q then flPos q
  else -flPos (-q)

/-- IEEE-754 double multiplication: round the exact product. -/
def fmul (x y : ℚ) : ℚ := fl (x * y)

/-- Python int-to-float conversion (exact below 2 ^ 53, rounded above). -/
def intToFloat (n : ℤ) : ℚ := fl (n : ℚ)

/-- Python `round` on a double value. -/
def pyRound (x : ℚ) : ℤ := rneInt x

/-- The exact value of the double nearest to the literal 1.10. -/
def c1_10 : ℚ := 4953959590107546 / 2 ^ 52

/-- The exact value of the double nearest to the literal 0.8. -/
def c0_8 : ℚ := 3602879701896397 / 2 ^ 52

/-- ASCII lower-casing of one character, as Python's `str.lower` acts on
the characters that can occur in the calculator's flag strings. -/
def charLower (c : Char) : Char :=
  if 'A' ≤ c ∧ c ≤ 'Z' then Char.ofNat (c.toNat + 32) else c

/-- Model of Python's `str.lower()`.  (Python lower-cases beyond ASCII,
but no non-ASCII character lower-cases to an ASCII letter, so the two
agree on every comparison with the literal "yes" made by the code.) -/
def pyLower (s : String) : String := ⟨s.data.map charLower⟩

/-- The `answers` dict: Python `answers.get(k)` returns `None` for a
missing key, so the dict is embedded as its lookup function. -/
abbrev Answers := String → Option String

/-- The nested `sizes` dict of the result of `compute_areas`. -/
structure Sizes where
  bedroom : ℤ
  bathroom : ℤ
  living : ℤ
  kitchen : ℤ
  car_park : ℤ
  workspace : ℤ
  rental : ℤ
  outdoor : ℤ
  staircase : ℤ
deriving DecidableEq

/-- The result dict of `compute_areas`. -/
structure Result where
  bedrooms : ℤ
  bathrooms : ℤ
  floors : ℤ
  sizes : Sizes
  carpet_without_stair : ℤ
  stair_total : ℤ
  carpet_area : ℤ
  built_up_area : ℤ
  plinth_area : ℤ
  cost_low : ℤ
  cost_high : ℤ
deriving DecidableEq

namespace App

/-- Transcribes `bhk_map = {...}; bedrooms = bhk_map.get(bhk, 2)`
(src/app.py lines 26-27). -/
def bedrooms_of (bhk : String) : ℤ :=
  if bhk = "2 BHK" then 2 else if bhk = "3 BHK" then 3
  else if bhk = "4 BHK" then 4 else 2

/-- Transcribes `bathrooms = max(2, bedrooms - 1)` (src/app.py line 30). -/
def bathrooms_of (bedrooms : ℤ) : ℤ := max 2 (bedrooms - 1)

/-- Transcribes the `LIVING` assignment and its two conditional
reassignments (src/app.py lines 37-41). -/
def LIVING_of (answers : Answers) : ℤ :=
  if answers ("Q9") = some ("Yes, frequently 🎉")
      ∨ answers ("Q12") = some ("Yes, large gatherings") then 220
  else if answers ("Q10") = some ("Terrace parties 🌌")
      ∨ answers ("Q10") = some ("Indoor gatherings 🍽️") then 200
  else 180

/-- Transcribes the `KITCHEN` assignment (src/app.py lines 44-46). -/
def KITCHEN_of (answers : Answers) : ℤ :=
  if answers ("Q10") = some ("Indoor gatherings 🍽️") then 80 else 70

/-- Transcribes the `WORKSPACE_SIZE` block (src/app.py lines 51-60). -/
def WORKSPACE_SIZE_of (workspace : String) (answers : Answers) : ℤ :=
  if pyLower workspace = "yes" then
    if (answers ("Q19")).getD ("") = "Yes, need a home office 💻" then 80
    else if (answers ("Q19")).getD ("") = "Occasionally" then 40
    else 30
  else 0

/-- Transcribes `RENTAL_SIZE = 250 if rental.lower() == "yes" else 0`
(src/app.py line 63). -/
def RENTAL_SIZE_of (rental : String) : ℤ :=
  if pyLower rental = "yes" then 250 else 0

/-- Transcribes the `OUTDOOR_SIZE` block (src/app.py lines 66-68). -/
def OUTDOOR_SIZE_of (answers : Answers) : ℤ :=
  if answers ("Q2") = some ("Gardening or tending to plants 🌱")
      ∨ answers ("Q15") = some ("Must have garden/balcony 🌿") then 60
  else 0

/-- Transcribes the floors heuristic (src/app.py lines 71-74). -/
def floors_of (bedrooms : ℤ) : ℤ := if bedrooms ≥ 3 then 2 else 1

/-- Transcription of `compute_areas` of src/app.py (lines 19-127).
`round(carpet_area * 1.10)`, `round(float(plot_size) * 0.8)` and
`round(base_cost * 1.10)` perform double arithmetic, embedded through
`fmul`, `intToFloat` and `pyRound`; `round(base_cost)` on the Python int
`base_cost` is the identity. -/
def compute_areas (bhk : String) (plot_size : ℚ) (workspace : String)
    (rental : String) (answers : Answers) : Result :=
  let bedrooms := bedrooms_of bhk
  let bathrooms := bathrooms_of bedrooms
  let BED : ℤ := 150
  let BATH : ℤ := 50
  let LIVING := LIVING_of answers
  let KITCHEN := KITCHEN_of answers
  let CAR_PARK : ℤ := 150
  let WORKSPACE_SIZE := WORKSPACE_SIZE_of workspace answers
  let RENTAL_SIZE := RENTAL_SIZE_of rental
  let OUTDOOR_SIZE := OUTDOOR_SIZE_of answers
  let floors := floors_of bedrooms
  let STAIR_PER_FLOOR : ℤ := 75
  let STAIR_TOTAL := STAIR_PER_FLOOR * floors
  let carpet_without_stair :=
    bedrooms * BED + bathrooms * BATH + LIVING + KITCHEN
      + WORKSPACE_SIZE + RENTAL_SIZE + OUTDOOR_SIZE
  let carpet_area := carpet_without_stair + STAIR_TOTAL
  let built_up_area := pyRound (fmul (intToFloat carpet_area) c1_10)
  let plinth_area := pyRound (fmul plot_size c0_8)
  let base_cost := (built_up_area + plinth_area) * 2500
  let cost_low := base_cost
  let cost_high := pyRound (fmul (intToFloat base_cost) c1_10)
  { bedrooms := bedrooms, bathrooms := bathrooms, floors := floors,
    sizes :=
      { bedroom := BED, bathroom := BATH, living := LIVING,
        kitchen := KITCHEN, car_park := CAR_PARK,
        workspace := WORKSPACE_SIZE, rental := RENTAL_SIZE,
        outdoor := OUTDOOR_SIZE, staircase := STAIR_PER_FLOOR },
    carpet_without_stair := carpet_without_stair,
    stair_total := STAIR_TOTAL, carpet_area := carpet_area,
    built_up_area := built_up_area, plinth_area := plinth_area,
    cost_low := cost_low, cost_high := cost_high }

end App

namespace Main

/-- Transcription of `compute_areas` of src/main.py (lines 43-132),
written independently of the src/app.py transcription and following
main.py's own statement order: `LIVING` and `KITCHEN` are first bound to
their base values and then conditionally reassigned (let-shadowing models
the Python reassignment), and `floors` is the conditional expression of
line 88. -/
def compute_areas (bhk : String) (plot_size : ℚ) (workspace : String)
    (rental : String) (answers : Answers) : Result :=
  let bedrooms : ℤ :=
    if bhk = "2 BHK" then 2 else if bhk = "3 BHK" then 3
    else if bhk = "4 BHK" then 4 else 2
  let bathrooms : ℤ := max 2 (bedrooms - 1)
  let BED : ℤ := 150
  let BATH : ℤ := 50
  let LIVING : ℤ := 180
  let KITCHEN : ℤ := 70
  let CAR_PARK : ℤ := 150
  let LIVING : ℤ :=
    if answers ("Q9") = some ("Yes, frequently 🎉")
        ∨ answers ("Q12") = some ("Yes, large gatherings") then 220
    else if answers ("Q10") = some ("Terrace parties 🌌")
        ∨ answers ("Q10") = some ("Indoor gatherings 🍽️") then 200
    else LIVING
  let KITCHEN : ℤ :=
    if answers ("Q10") = some ("Indoor gatherings 🍽️") then 80 else KITCHEN
  let WORKSPACE_SIZE : ℤ :=
    if pyLower workspace = "yes" then
      if (answers ("Q19")).getD ("") = "Yes, need a home office 💻" then 80
      else if (answers ("Q19")).getD ("") = "Occasionally" then 40
      else 30
    else 0
  let RENTAL_SIZE : ℤ := if pyLower rental = "yes" then 250 else 0
  let OUTDOOR_SIZE : ℤ :=
    if answers ("Q2") = some ("Gardening or tending to plants 🌱")
        ∨ answers ("Q15") = some ("Must have garden/balcony 🌿") then 60
    else 0
  let floors : ℤ := if bedrooms ≥ 3 then 2 else 1
  let STAIR_PER_FLOOR : ℤ := 75
  let STAIR_TOTAL := STAIR_PER_FLOOR * floors
  let carpet_without_stair :=
    bedrooms * BED + bathrooms * BATH + LIVING + KITCHEN
      + WORKSPACE_SIZE + RENTAL_SIZE + OUTDOOR_SIZE
  let carpet_area := carpet_without_stair + STAIR_TOTAL
  let built_up_area := pyRound (fmul (intToFloat carpet_area) c1_10)
  let plinth_area := pyRound (fmul plot_size c0_8)
  let base_cost := (built_up_area + plinth_area) * 2500
  let cost_low := base_cost
  let cost_high := pyRound (fmul (intToFloat base_cost) c1_10)
  { bedrooms := bedrooms, bathrooms := bathrooms, floors := floors,
    sizes :=
      { bedroom := BED, bathroom := BATH, living := LIVING,
        kitchen := KITCHEN, car_park := CAR_PARK,
        workspace := WORKSPACE_SIZE, rental := RENTAL_SIZE,
        outdoor := OUTDOOR_SIZE, staircase := STAIR_PER_FLOOR },
    carpet_without_stair := carpet_without_stair,
    stair_total := STAIR_TOTAL, carpet_area := carpet_area,
    built_up_area := built_up_area, plinth_area := plinth_area,
    cost_low := cost_low, cost_high := cost_high }

end Main

/-- The empty answers dict. -/
def noAnswers : Answers := fun _ => none

/-! ### Facts about the round-to-nearest-ties-to-even integer rounding -/

lemma rneInt_intCast (n : ℤ) : rneInt (n : ℚ) = n := by
  simp [rneInt]

lemma floor_le_rneInt (x : ℚ) : ⌊x⌋ ≤ rneInt x := by
  unfold rneInt; split_ifs <;> omega

lemma rneInt_le_floor_add_one (x : ℚ) : rneInt x ≤ ⌊x⌋ + 1 := by
  unfold rneInt; split_ifs <;> omega

lemma rneInt_mono {x y : ℚ} (h : x ≤ y) : rneInt x ≤ rneInt y := by
  have hf : ⌊x⌋ ≤ ⌊y⌋ := Int.floor_le_floor h
  rcases eq_or_lt_of_le hf with heq | hlt
  · have hfr : x - ⌊x⌋ ≤ y - ⌊y⌋ := by
      rw [← heq]; exact sub_le_sub_right h _
    unfold rneInt
    rw [← heq]
    split_ifs <;> first | omega | linarith
  · have h1 := rneInt_le_floor_add_one x
    have h2 := floor_le_rneInt y
    omega

lemma intCast_le_rneInt {n : ℤ} {x : ℚ} (h : (n : ℚ) ≤ x) : n ≤ rneInt x :=
  le_trans (Int.le_floor.mpr h) (floor_le_rneInt x)

lemma rneInt_le_intCast {x : ℚ} {n : ℤ} (h : x ≤ (n : ℚ)) : rneInt x ≤ n := by
  rcases eq_or_lt_of_le h with heq | hlt
  · rw [heq, rneInt_intCast]
  · have h1 : ⌊x⌋ < n := Int.floor_lt.mpr hlt
    have h2 := rneInt_le_floor_add_one x
    omega

lemma rneInt_nonneg {x : ℚ} (hx : 0 ≤ x) : 0 ≤ rneInt x :=
  intCast_le_rneInt (by exact_mod_cast hx)

lemma one_le_rneInt {x : ℚ} (hx : 1 ≤ x) : 1 ≤ rneInt x :=
  intCast_le_rneInt (by exact_mod_cast hx)

/-! ### Facts about rounding to the 53-bit float grid -/

lemma two_zpow_pos (n : ℤ) : (0:ℚ) < 2 ^ n := zpow_pos two_pos n

lemma two_zpow_log_le {q : ℚ} (hq : 0 < q) : (2:ℚ) ^ Int.log 2 q ≤ q := by
  have h := Int.zpow_log_le_self (b := 2) (R := ℚ) one_lt_two hq
  norm_num at h
  exact h

lemma lt_two_zpow_succ_log (q : ℚ) : q < (2:ℚ) ^ (Int.log 2 q + 1) := by
  have h := Int.lt_zpow_succ_log_self (b := 2) (R := ℚ) one_lt_two q
  norm_num at h
  exact h

lemma le_log_of_zpow_le {q : ℚ} {x : ℤ} (h0 : 0 < q) (h : (2:ℚ) ^ x ≤ q) :
    x ≤ Int.log 2 q := by
  refine (Int.zpow_le_iff_le_log (b := 2) (R := ℚ) one_lt_two h0).mp ?_
  norm_num
  exact h

lemma log_lt_of_lt_zpow {q : ℚ} {x : ℤ} (h0 : 0 < q) (h : q < (2:ℚ) ^ x) :
    Int.log 2 q < x := by
  refine (Int.lt_zpow_iff_log_lt (b := 2) (R := ℚ) one_lt_two h0).mp ?_
  norm_num
  exact h

lemma two_zpow_mul_two_zpow (m n : ℤ) : (2:ℚ) ^ m * 2 ^ n = 2 ^ (m + n) :=
  (zpow_add₀ two_ne_zero m n).symm

lemma flPos_lb {q : ℚ} (hq : 0 < q) : (2:ℚ) ^ Int.log 2 q ≤ flPos q := by
  set e := Int.log 2 q with he
  have hm : (2:ℚ) ^ (52:ℤ) ≤ q * 2 ^ ((52:ℤ) - e) := by
    calc (2:ℚ) ^ (52:ℤ) = 2 ^ e * 2 ^ ((52:ℤ) - e) := by
          rw [two_zpow_mul_two_zpow]; congr 1; ring
    _ ≤ q * 2 ^ ((52:ℤ) - e) :=
          mul_le_mul_of_nonneg_right (two_zpow_log_le hq) (two_zpow_pos _).le
  have h1 : ((2:ℤ) ^ (52:ℕ) : ℚ) ≤ q * 2 ^ ((52:ℤ) - e) := by push_cast; exact_mod_cast hm
  have h2 : (2:ℤ) ^ (52:ℕ) ≤ rneInt (q * 2 ^ ((52:ℤ) - e)) := intCast_le_rneInt h1
  unfold flPos
  rw [← he]
  calc (2:ℚ) ^ e = 2 ^ (52:ℤ) * 2 ^ (e - 52) := by
        rw [two_zpow_mul_two_zpow]; congr 1; ring
  _ ≤ (rneInt (q * 2 ^ ((52:ℤ) - e)) : ℚ) * 2 ^ (e - 52) := by
        refine mul_le_mul_of_nonneg_right ?_ (two_zpow_pos _).le
        exact_mod_cast h2

lemma flPos_ub {q : ℚ} (_hq : 0 < q) : flPos q ≤ (2:ℚ) ^ (Int.log 2 q + 1) := by
  set e := Int.log 2 q with he
  have hm : q * 2 ^ ((52:ℤ) - e) ≤ (2:ℚ) ^ (53:ℤ) := by
    calc q * 2 ^ ((52:ℤ) - e) ≤ 2 ^ (e + 1) * 2 ^ ((52:ℤ) - e) :=
          mul_le_mul_of_nonneg_right (lt_two_zpow_succ_log q).le (two_zpow_pos _).le
    _ = (2:ℚ) ^ (53:ℤ) := by rw [two_zpow_mul_two_zpow]; congr 1; ring
  have h1 : q * 2 ^ ((52:ℤ) - e) ≤ ((2:ℤ) ^ (53:ℕ) : ℚ) := by push_cast; exact_mod_cast hm
  have h2 : rneInt (q * 2 ^ ((52:ℤ) - e)) ≤ (2:ℤ) ^ (53:ℕ) := rneInt_le_intCast h1
  unfold flPos
  rw [← he]
  calc (rneInt (q * 2 ^ ((52:ℤ) - e)) : ℚ) * 2 ^ (e - 52)
      ≤ ((2:ℤ) ^ (53:ℕ) : ℚ) * 2 ^ (e - 52) := by
        refine mul_le_mul_of_nonneg_right ?_ (two_zpow_pos _).le
        exact_mod_cast h2
  _ = 2 ^ (e + 1) := by push_cast; rw [← zpow_natCast (2:ℚ) 53, two_zpow_mul_two_zpow]; congr 1; ring

lemma flPos_mono {x y : ℚ} (hx : 0 < x) (hxy : x ≤ y) : flPos x ≤ flPos y := by
  have hy : 0 < y := lt_of_lt_of_le hx hxy
  have he : Int.log 2 x ≤ Int.log 2 y := Int.log_mono_right hx hxy
  rcases eq_or_lt_of_le he with heq | hlt
  · unfold flPos
    rw [← heq]
    refine mul_le_mul_of_nonneg_right ?_ (two_zpow_pos _).le
    exact_mod_cast rneInt_mono (mul_le_mul_of_nonneg_right hxy (two_zpow_pos _).le)
  · calc flPos x ≤ 2 ^ (Int.log 2 x + 1) := flPos_ub hx
    _ ≤ (2:ℚ) ^ Int.log 2 y := zpow_le_zpow_right₀ one_le_two (by omega)
    _ ≤ flPos y := flPos_lb hy

lemma fl_of_pos {q : ℚ} (hq : 0 < q) : fl q = flPos q := by
  unfold fl
  rw [if_neg hq.ne', if_pos hq]

lemma fl_pos {q : ℚ} (hq : 0 < q) : 0 < fl q := by
  rw [fl_of_pos hq]
  exact lt_of_lt_of_le (two_zpow_pos _) (flPos_lb hq)

lemma fl_mono {x y : ℚ} (hx : 0 < x) (h : x ≤ y) : fl x ≤ fl y := by
  rw [fl_of_pos hx, fl_of_pos (lt_of_lt_of_le hx h)]
  exact flPos_mono hx h

lemma one_le_fl {q : ℚ} (h : 1 ≤ q) : 1 ≤ fl q := by
  have h0 : (0:ℚ) < q := lt_of_lt_of_le one_pos h
  rw [fl_of_pos h0]
  have he : 0 ≤ Int.log 2 q := by
    rw [Int.log_of_one_le_right _ h]; exact Int.natCast_nonneg _
  calc (1:ℚ) = 2 ^ (0:ℤ) := by norm_num
  _ ≤ 2 ^ Int.log 2 q := zpow_le_zpow_right₀ one_le_two he
  _ ≤ flPos q := flPos_lb h0

/-- Evaluation rule for `fl` at a concrete point: supply the binade
exponent and the rounded mantissa. -/
lemma fl_eval {q : ℚ} {e m : ℤ} (h0 : 0 < q) (hlow : (2:ℚ) ^ e ≤ q)
    (hhigh : q < 2 ^ (e + 1)) (hm : rneInt (q * 2 ^ ((52:ℤ) - e)) = m) :
    fl q = (m : ℚ) * 2 ^ (e - (52:ℤ)) := by
  have hlog : Int.log 2 q = e :=
    le_antisymm (by have := log_lt_of_lt_zpow h0 hhigh; omega)
      (le_log_of_zpow_le h0 hlow)
  rw [fl_of_pos h0]
  unfold flPos
  rw [hlog, hm]

/-! ### Concrete double-arithmetic evaluations -/

lemma intToFloat_725 : intToFloat 725 = 725 := by
  unfold intToFloat
  rw [fl_eval (e := 9) (m := 6377167441100800) (by norm_num) (by norm_num)
    (by norm_num) (by norm_num [rneInt])]
  norm_num

lemma fmul_725 : fmul (725:ℚ) c1_10 = 7014884185210881 / 2 ^ 43 := by
  unfold fmul
  rw [fl_eval (e := 9) (m := 7014884185210881) (by norm_num [c1_10])
    (by norm_num [c1_10]) (by norm_num [c1_10]) (by norm_num [rneInt, c1_10])]
  norm_num

lemma pyRound_fmul_725 : pyRound (7014884185210881 / 2 ^ 43 : ℚ) = 798 := by
  norm_num [pyRound, rneInt]

lemma fmul_1200 : fmul (1200:ℚ) c0_8 = 960 := by
  unfold fmul
  rw [fl_eval (e := 9) (m := 8444249301319680) (by norm_num [c0_8])
    (by norm_num [c0_8]) (by norm_num [c0_8]) (by norm_num [rneInt, c0_8])]
  norm_num

lemma pyRound_960 : pyRound ((960:ℚ)) = 960 := by
  norm_num [pyRound, rneInt]

lemma intToFloat_4395000 : intToFloat 4395000 = 4395000 := by
  unfold intToFloat
  rw [fl_eval (e := 22) (m := 4719095316480000) (by norm_num) (by norm_num)
    (by norm_num) (by norm_num [rneInt])]
  norm_num

lemma fmul_4395000 : fmul (4395000:ℚ) c1_10 = 4834500 := by
  unfold fmul
  rw [fl_eval (e := 22) (m := 5191004848128000) (by norm_num [c1_10])
    (by norm_num [c1_10]) (by norm_num [c1_10]) (by norm_num [rneInt, c1_10])]
  norm_num

lemma pyRound_4834500 : pyRound ((4834500:ℚ)) = 4834500 := by
  norm_num [pyRound, rneInt]

lemma fmul_1200_5 : fmul (2401/2 : ℚ) c0_8 = 2111941934632141 / 2 ^ 41 := by
  unfold fmul
  rw [fl_eval (e := 9) (m := 8447767738528564) (by norm_num [c0_8])
    (by norm_num [c0_8]) (by norm_num [c0_8]) (by norm_num [rneInt, c0_8])]
  norm_num

lemma pyRound_fmul_1200_5 : pyRound (2111941934632141 / 2 ^ 41 : ℚ) = 960 := by
  norm_num [pyRound, rneInt]

/-- Composite: the built-up-area computation of src/app.py line 95 at
carpet area 725. -/
lemma built_up_725_eval : pyRound (fmul (intToFloat 725) c1_10) = 798 := by
  rw [intToFloat_725, fmul_725, pyRound_fmul_725]

/-- Composite: the plinth computation of src/app.py line 98 at plot 1200. -/
lemma plinth_1200_eval : pyRound (fmul (1200:ℚ) c0_8) = 960 := by
  rw [fmul_1200, pyRound_960]

/-- Composite: the cost-high computation of src/app.py line 103 at base
cost 4395000. -/
lemma cost_high_4395000_eval :
    pyRound (fmul (intToFloat 4395000) c1_10) = 4834500 := by
  rw [intToFloat_4395000, fmul_4395000, pyRound_4834500]

/-- Composite: the plinth computation at plot 1200.5. -/
lemma plinth_1200_5_eval : pyRound (fmul (2401/2 : ℚ) c0_8) = 960 := by
  rw [fmul_1200_5, pyRound_fmul_1200_5]

/-! ### Derived shapes and bounds of the src/app.py transcription -/

/-- The carpet area (functional area including stairs) of
src/app.py lines 81-92, as a function of the four discrete inputs. -/
def App.carpet_area_of (bhk workspace rental : String) (a : Answers) : ℤ :=
  App.bedrooms_of bhk * 150 + App.bathrooms_of (App.bedrooms_of bhk) * 50
    + App.LIVING_of a + App.KITCHEN_of a + App.WORKSPACE_SIZE_of workspace a
    + App.RENTAL_SIZE_of rental + App.OUTDOOR_SIZE_of a
    + 75 * App.floors_of (App.bedrooms_of bhk)

lemma App.compute_areas_carpet_area (b : String) (p : ℚ) (w r : String) (a : Answers) :
    (App.compute_areas b p w r a).carpet_area = App.carpet_area_of b w r a := rfl

lemma App.compute_areas_built_up (b : String) (p : ℚ) (w r : String) (a : Answers) :
    (App.compute_areas b p w r a).built_up_area
      = pyRound (fmul (intToFloat (App.carpet_area_of b w r a)) c1_10) := rfl

lemma App.compute_areas_plinth (b : String) (p : ℚ) (w r : String) (a : Answers) :
    (App.compute_areas b p w r a).plinth_area = pyRound (fmul p c0_8) := rfl

lemma App.compute_areas_cost_low (b : String) (p : ℚ) (w r : String) (a : Answers) :
    (App.compute_areas b p w r a).cost_low
      = ((App.compute_areas b p w r a).built_up_area
          + (App.compute_areas b p w r a).plinth_area) * 2500 := rfl

lemma App.compute_areas_cost_high (b : String) (p : ℚ) (w r : String) (a : Answers) :
    (App.compute_areas b p w r a).cost_high
      = pyRound (fmul (intToFloat ((App.compute_areas b p w r a).cost_low)) c1_10) := rfl

lemma App.two_le_bedrooms_of (b : String) : 2 ≤ App.bedrooms_of b := by
  unfold App.bedrooms_of; split_ifs <;> omega

lemma App.two_le_bathrooms_of (n : ℤ) : 2 ≤ App.bathrooms_of n := le_max_left _ _

lemma App.LIVING_of_ge (a : Answers) : 180 ≤ App.LIVING_of a := by
  unfold App.LIVING_of; split_ifs <;> omega

lemma App.KITCHEN_of_ge (a : Answers) : 70 ≤ App.KITCHEN_of a := by
  unfold App.KITCHEN_of; split_ifs <;> omega

lemma App.WORKSPACE_SIZE_of_nonneg (w : String) (a : Answers) :
    0 ≤ App.WORKSPACE_SIZE_of w a := by
  unfold App.WORKSPACE_SIZE_of; split_ifs <;> omega

lemma App.RENTAL_SIZE_of_nonneg (r : String) : 0 ≤ App.RENTAL_SIZE_of r := by
  unfold App.RENTAL_SIZE_of; split_ifs <;> omega

lemma App.OUTDOOR_SIZE_of_nonneg (a : Answers) : 0 ≤ App.OUTDOOR_SIZE_of a := by
  unfold App.OUTDOOR_SIZE_of; split_ifs <;> omega

lemma App.one_le_floors_of (n : ℤ) : 1 ≤ App.floors_of n := by
  unfold App.floors_of; split_ifs <;> omega

lemma App.carpet_area_of_ge (b w r : String) (a : Answers) :
    725 ≤ App.carpet_area_of b w r a := by
  have h1 := App.two_le_bedrooms_of b
  have h2 := App.two_le_bathrooms_of (App.bedrooms_of b)
  have h3 := App.LIVING_of_ge a
  have h4 := App.KITCHEN_of_ge a
  have h5 := App.WORKSPACE_SIZE_of_nonneg w a
  have h6 := App.RENTAL_SIZE_of_nonneg r
  have h7 := App.OUTDOOR_SIZE_of_nonneg a
  have h8 := App.one_le_floors_of (App.bedrooms_of b)
  unfold App.carpet_area_of
  omega

lemma c0_8_pos : (0:ℚ) < c0_8 := by norm_num [c0_8]

lemma one_le_c1_10 : (1:ℚ) ≤ c1_10 := by norm_num [c1_10]

/-- The built-up area is at least 1 for every input (in fact far larger);
enough positivity for the monotonicity chain. -/
lemma App.one_le_built_up (b w r : String) (a : Answers) :
    1 ≤ pyRound (fmul (intToFloat (App.carpet_area_of b w r a)) c1_10) := by
  have hc : (1:ℚ) ≤ ((App.carpet_area_of b w r a : ℤ) : ℚ) := by
    have := App.carpet_area_of_ge b w r a
    exact_mod_cast (by omega : (1:ℤ) ≤ App.carpet_area_of b w r a)
  have h1 : (1:ℚ) ≤ intToFloat (App.carpet_area_of b w r a) := one_le_fl hc
  have h2 : (1:ℚ) ≤ intToFloat (App.carpet_area_of b w r a) * c1_10 := by
    calc (1:ℚ) = 1 * 1 := by norm_num
    _ ≤ intToFloat (App.carpet_area_of b w r a) * c1_10 :=
        mul_le_mul h1 one_le_c1_10 zero_le_one (le_trans zero_le_one h1)
  have h3 : (1:ℚ) ≤ fmul (intToFloat (App.carpet_area_of b w r a)) c1_10 := by
    unfold fmul; exact one_le_fl h2
  exact one_le_rneInt h3

/-- Plinth area is monotone (not strictly) in the plot size. -/
lemma plinth_mono {p1 p2 : ℚ} (h0 : 0 < p1) (h : p1 ≤ p2) :
    pyRound (fmul p1 c0_8) ≤ pyRound (fmul p2 c0_8) := by
  unfold pyRound fmul
  exact rneInt_mono (fl_mono (mul_pos h0 c0_8_pos)
    (mul_le_mul_of_nonneg_right h c0_8_pos.le))

/-- Plinth area is nonnegative for positive plot size. -/
lemma plinth_nonneg {p : ℚ} (hp : 0 < p) : 0 ≤ pyRound (fmul p c0_8) := by
  unfold pyRound fmul
  exact rneInt_nonneg (fl_pos (mul_pos hp c0_8_pos)).le

/-- The cost-high computation is monotone in a positive integer base
cost. -/
lemma cost_high_mono {n1 n2 : ℤ} (h1 : 1 ≤ n1) (h : n1 ≤ n2) :
    pyRound (fmul (intToFloat n1) c1_10)
      ≤ pyRound (fmul (intToFloat n2) c1_10) := by
  have ha : (1:ℚ) ≤ (n1 : ℚ) := by exact_mod_cast h1
  have hf1 : (1:ℚ) ≤ intToFloat n1 := one_le_fl ha
  have hfm : intToFloat n1 ≤ intToFloat n2 := by
    unfold intToFloat
    exact fl_mono (by exact_mod_cast lt_of_lt_of_le zero_lt_one h1)
      (by exact_mod_cast h)
  have hpos : (0:ℚ) < intToFloat n1 * c1_10 :=
    mul_pos (lt_of_lt_of_le zero_lt_one hf1)
      (lt_of_lt_of_le zero_lt_one one_le_c1_10)
  unfold pyRound fmul
  exact rneInt_mono (fl_mono hpos
    (mul_le_mul_of_nonneg_right hfm (le_trans zero_le_one one_le_c1_10)))

/-! ### The claims -/

/-- C1 counterexample: the claimed scenario-1 record (carpet without
stairs 700, carpet area 775, built-up 853, cost low 4532500, cost high
4985750) is not what compute_areas returns at that input: the sum
2x150 + 2x50 + 180 + 70 is 650, not 700. -/
theorem c1_counterexample :
    ¬ (App.compute_areas ("2 BHK") 1200 ("No") ("No") noAnswers =
      { bedrooms := 2, bathrooms := 2, floors := 1,
        sizes := { bedroom := 150, bathroom := 50, living := 180,
                   kitchen := 70, car_park := 150, workspace := 0,
                   rental := 0, outdoor := 0, staircase := 75 },
        carpet_without_stair := 700, stair_total := 75, carpet_area := 775,
        built_up_area := 853, plinth_area := 960,
        cost_low := 4532500, cost_high := 4985750 }) := by
  intro h
  have h2 := congrArg Result.carpet_without_stair h
  have h3 : (App.compute_areas ("2 BHK") 1200 ("No") ("No")
      noAnswers).carpet_without_stair = 650 := by decide
  rw [h3] at h2
  exact absurd h2 (by decide)

/-- C1 amended: for the input bhk "2 BHK", plot_size 1200, workspace
"No", rental "No" and empty answers, compute_areas returns exactly
bedrooms 2, bathrooms 2, floors 1, living 180, kitchen 70, workspace 0,
rental 0, outdoor 0, stair_total 75, carpet_without_stair 650 (not 700),
carpet_area 725, built_up_area 798, plinth_area 960, cost_low 4395000,
cost_high 4834500. -/
theorem c1_scenario1_exact :
    App.compute_areas ("2 BHK") 1200 ("No") ("No") noAnswers =
      { bedrooms := 2, bathrooms := 2, floors := 1,
        sizes := { bedroom := 150, bathroom := 50, living := 180,
                   kitchen := 70, car_park := 150, workspace := 0,
                   rental := 0, outdoor := 0, staircase := 75 },
        carpet_without_stair := 650, stair_total := 75, carpet_area := 725,
        built_up_area := 798, plinth_area := 960,
        cost_low := 4395000, cost_high := 4834500 } := by
  have h1 : App.bedrooms_of ("2 BHK") = 2 := by decide
  have h2 : App.bathrooms_of 2 = 2 := by decide
  have h3 : App.LIVING_of noAnswers = 180 := by decide
  have h4 : App.KITCHEN_of noAnswers = 70 := by decide
  have h5 : App.WORKSPACE_SIZE_of ("No") noAnswers = 0 := by decide
  have h6 : App.RENTAL_SIZE_of ("No") = 0 := by decide
  have h7 : App.OUTDOOR_SIZE_of noAnswers = 0 := by decide
  have h8 : App.floors_of 2 = 1 := by decide
  simp only [App.compute_areas, h1, h2, h3, h4, h5, h6, h7, h8]
  norm_num [built_up_725_eval, plinth_1200_eval, cost_high_4395000_eval,
    Result.mk.injEq, Sizes.mk.injEq]

/-- C2: for every input, cost_low equals round of
(built_up_area + plinth_area) times 2500 — in the code the rounding of
the integer base cost is the identity, so cost_low is exactly the base
cost — and cost_high equals round of cost_low times the double 1.10. -/
theorem c2_cost_formula (b : String) (p : ℚ) (w r : String) (a : Answers) :
    (App.compute_areas b p w r a).cost_low
        = ((App.compute_areas b p w r a).built_up_area
            + (App.compute_areas b p w r a).plinth_area) * 2500
    ∧ (App.compute_areas b p w r a).cost_low
        = pyRound ((((App.compute_areas b p w r a).built_up_area
            + (App.compute_areas b p w r a).plinth_area) * 2500 : ℤ) : ℚ)
    ∧ (App.compute_areas b p w r a).cost_high
        = pyRound (fmul (intToFloat ((App.compute_areas b p w r a).cost_low)) c1_10) := by
  refine ⟨rfl, ?_, rfl⟩
  unfold pyRound
  rw [rneInt_intCast]
  rfl

/-- C3 counterexample: increasing the plot size from 1200 to 1200.5
leaves plinth_area, cost_low and cost_high unchanged, so a strict
increase in plot size does not strictly increase them. -/
theorem c3_counterexample :
    (1200:ℚ) < 2401/2
    ∧ (App.compute_areas ("2 BHK") (2401/2) ("No") ("No") noAnswers).plinth_area
        = (App.compute_areas ("2 BHK") 1200 ("No") ("No") noAnswers).plinth_area
    ∧ (App.compute_areas ("2 BHK") (2401/2) ("No") ("No") noAnswers).cost_low
        = (App.compute_areas ("2 BHK") 1200 ("No") ("No") noAnswers).cost_low
    ∧ (App.compute_areas ("2 BHK") (2401/2) ("No") ("No") noAnswers).cost_high
        = (App.compute_areas ("2 BHK") 1200 ("No") ("No") noAnswers).cost_high := by
  have hp : (App.compute_areas ("2 BHK") (2401/2) ("No") ("No")
        noAnswers).plinth_area
      = (App.compute_areas ("2 BHK") 1200 ("No") ("No") noAnswers).plinth_area := by
    rw [App.compute_areas_plinth, App.compute_areas_plinth,
      plinth_1200_eval, plinth_1200_5_eval]
  have hl : (App.compute_areas ("2 BHK") (2401/2) ("No") ("No")
        noAnswers).cost_low
      = (App.compute_areas ("2 BHK") 1200 ("No") ("No") noAnswers).cost_low := by
    rw [App.compute_areas_cost_low, App.compute_areas_cost_low,
      App.compute_areas_built_up, App.compute_areas_built_up, hp]
  have hh : (App.compute_areas ("2 BHK") (2401/2) ("No") ("No")
        noAnswers).cost_high
      = (App.compute_areas ("2 BHK") 1200 ("No") ("No") noAnswers).cost_high := by
    rw [App.compute_areas_cost_high, App.compute_areas_cost_high, hl]
  exact ⟨by norm_num, hp, hl, hh⟩

/-- C3 amended: holding bhk, workspace, rental and answers fixed,
increasing the plot size never decreases plinth_area, and consequently
never decreases cost_low or cost_high; the increase need not be strict
because plinth rounds to whole square feet. -/
theorem c3_plot_monotone (b w r : String) (a : Answers) (p1 p2 : ℚ)
    (h0 : 0 < p1) (h12 : p1 ≤ p2) :
    (App.compute_areas b p1 w r a).plinth_area
        ≤ (App.compute_areas b p2 w r a).plinth_area
    ∧ (App.compute_areas b p1 w r a).cost_low
        ≤ (App.compute_areas b p2 w r a).cost_low
    ∧ (App.compute_areas b p1 w r a).cost_high
        ≤ (App.compute_areas b p2 w r a).cost_high := by
  have hpl : (App.compute_areas b p1 w r a).plinth_area
      ≤ (App.compute_areas b p2 w r a).plinth_area := by
    rw [App.compute_areas_plinth, App.compute_areas_plinth]
    exact plinth_mono h0 h12
  have hcl : (App.compute_areas b p1 w r a).cost_low
      ≤ (App.compute_areas b p2 w r a).cost_low := by
    rw [App.compute_areas_cost_low, App.compute_areas_cost_low,
      App.compute_areas_built_up, App.compute_areas_built_up]
    omega
  have h1 : 1 ≤ (App.compute_areas b p1 w r a).cost_low := by
    rw [App.compute_areas_cost_low, App.compute_areas_built_up,
      App.compute_areas_plinth]
    have hb := App.one_le_built_up b w r a
    have hp := plinth_nonneg h0
    omega
  have hch : (App.compute_areas b p1 w r a).cost_high
      ≤ (App.compute_areas b p2 w r a).cost_high := by
    rw [App.compute_areas_cost_high, App.compute_areas_cost_high]
    exact cost_high_mono h1 hcl
  exact ⟨hpl, hcl, hch⟩

/-- C3 witness: the amended monotonicity applied at plots 1200 and 1300. -/
theorem c3_plot_monotone_witness :
    (0:ℚ) < 1200 ∧ (1200:ℚ) ≤ 1300
    ∧ ((App.compute_areas ("2 BHK") 1200 ("No") ("No") noAnswers).plinth_area
        ≤ (App.compute_areas ("2 BHK") 1300 ("No") ("No") noAnswers).plinth_area
      ∧ (App.compute_areas ("2 BHK") 1200 ("No") ("No") noAnswers).cost_low
        ≤ (App.compute_areas ("2 BHK") 1300 ("No") ("No") noAnswers).cost_low
      ∧ (App.compute_areas ("2 BHK") 1200 ("No") ("No") noAnswers).cost_high
        ≤ (App.compute_areas ("2 BHK") 1300 ("No") ("No") noAnswers).cost_high) :=
  ⟨by norm_num, by norm_num,
    c3_plot_monotone ("2 BHK") ("No") ("No") noAnswers 1200 1300
      (by norm_num) (by norm_num)⟩

/-- C4: the living-room size gives the 220-branch precedence: if the Q9
answer is the hosting option or the Q12 answer is the large-gatherings
option then living is 220 even when Q10 also matches; otherwise if the
Q10 answer is terrace-parties or indoor-gatherings then 200; otherwise
180. -/
theorem c4_living_precedence (b : String) (p : ℚ) (w r : String) (a : Answers) :
    ((a ("Q9") = some ("Yes, frequently 🎉")
        ∨ a ("Q12") = some ("Yes, large gatherings")) →
      (App.compute_areas b p w r a).sizes.living = 220)
    ∧ (¬(a ("Q9") = some ("Yes, frequently 🎉")
          ∨ a ("Q12") = some ("Yes, large gatherings")) →
        (a ("Q10") = some ("Terrace parties 🌌")
          ∨ a ("Q10") = some ("Indoor gatherings 🍽️")) →
      (App.compute_areas b p w r a).sizes.living = 200)
    ∧ (¬(a ("Q9") = some ("Yes, frequently 🎉")
          ∨ a ("Q12") = some ("Yes, large gatherings")) →
       ¬(a ("Q10") = some ("Terrace parties 🌌")
          ∨ a ("Q10") = some ("Indoor gatherings 🍽️")) →
      (App.compute_areas b p w r a).sizes.living = 180) := by
  have hl : (App.compute_areas b p w r a).sizes.living = App.LIVING_of a := rfl
  rw [hl]
  unfold App.LIVING_of
  split_ifs with hA hB
  · exact ⟨fun _ => rfl, fun hn => absurd hA hn, fun hn _ => absurd hA hn⟩
  · exact ⟨fun h => absurd h hA, fun _ _ => rfl, fun _ hn => absurd hB hn⟩
  · exact ⟨fun h => absurd h hA, fun _ h => absurd h hB, fun _ _ => rfl⟩

/-- C4 witness: with Q9 answered as hosting and Q10 answered as
terrace-parties the 220-branch wins. -/
theorem c4_living_precedence_witness :
    (App.compute_areas ("2 BHK") 1200 ("No") ("No")
      (fun k => if k = "Q9" then some ("Yes, frequently 🎉")
        else if k = "Q10" then some ("Terrace parties 🌌")
        else none)).sizes.living = 220 :=
  (c4_living_precedence ("2 BHK") 1200 ("No") ("No")
      (fun k => if k = "Q9" then some ("Yes, frequently 🎉")
        else if k = "Q10" then some ("Terrace parties 🌌")
        else none)).1 (Or.inl (by decide))

/-- C5: the workspace size is 0 when the workspace flag does not
lower-case to "yes"; when it does, the size is 80 for the home-office
Q19 answer, 40 for the occasionally answer, and 30 in every other case
including a missing Q19 key. -/
theorem c5_workspace_size (b : String) (p : ℚ) (w r : String) (a : Answers) :
    (¬ pyLower w = "yes" → (App.compute_areas b p w r a).sizes.workspace = 0)
    ∧ (pyLower w = "yes" →
        (a ("Q19")).getD ("") = "Yes, need a home office 💻" →
        (App.compute_areas b p w r a).sizes.workspace = 80)
    ∧ (pyLower w = "yes" →
        (a ("Q19")).getD ("") = "Occasionally" →
        (App.compute_areas b p w r a).sizes.workspace = 40)
    ∧ (pyLower w = "yes" →
        ¬ (a ("Q19")).getD ("") = "Yes, need a home office 💻" →
        ¬ (a ("Q19")).getD ("") = "Occasionally" →
        (App.compute_areas b p w r a).sizes.workspace = 30) := by
  have hws : (App.compute_areas b p w r a).sizes.workspace
      = App.WORKSPACE_SIZE_of w a := rfl
  rw [hws]
  unfold App.WORKSPACE_SIZE_of
  split_ifs with hw h80 h40
  · refine ⟨fun hn => absurd hw hn, fun _ _ => rfl, fun _ hocc => ?_,
      fun _ hn _ => absurd h80 hn⟩
    rw [h80] at hocc
    exact absurd hocc (by decide)
  · exact ⟨fun hn => absurd hw hn, fun _ hh => absurd hh h80,
      fun _ _ => rfl, fun _ _ hn => absurd h40 hn⟩
  · exact ⟨fun hn => absurd hw hn, fun _ hh => absurd hh h80,
      fun _ hh => absurd hh h40, fun _ _ _ => rfl⟩
  · exact ⟨fun _ => rfl, fun hw' => absurd hw' hw, fun hw' => absurd hw' hw,
      fun hw' => absurd hw' hw⟩

/-- C5 witness: workspace "Yes" with no Q19 key falls back to size 30. -/
theorem c5_workspace_size_witness :
    (App.compute_areas ("2 BHK") 1200 ("Yes") ("No") noAnswers).sizes.workspace
      = 30 :=
  (c5_workspace_size ("2 BHK") 1200 ("Yes") ("No") noAnswers).2.2.2
    (by decide) (by decide) (by decide)

/-- C6: the bathroom count always equals max 2 (bedrooms - 1), and in
particular is 2, 2, 3 for bedroom counts 2, 3, 4. -/
theorem c6_bathrooms (b : String) (p : ℚ) (w r : String) (a : Answers) :
    (App.compute_areas b p w r a).bathrooms
        = max 2 ((App.compute_areas b p w r a).bedrooms - 1)
    ∧ ((App.compute_areas b p w r a).bedrooms = 2 →
        (App.compute_areas b p w r a).bathrooms = 2)
    ∧ ((App.compute_areas b p w r a).bedrooms = 3 →
        (App.compute_areas b p w r a).bathrooms = 2)
    ∧ ((App.compute_areas b p w r a).bedrooms = 4 →
        (App.compute_areas b p w r a).bathrooms = 3) := by
  have hb : (App.compute_areas b p w r a).bedrooms = App.bedrooms_of b := rfl
  have hba : (App.compute_areas b p w r a).bathrooms
      = max 2 (App.bedrooms_of b - 1) := rfl
  refine ⟨rfl, ?_, ?_, ?_⟩ <;> intro h <;> rw [hb] at h <;> rw [hba, h] <;> decide

/-- C6 witness: the bathroom rule applied at "4 BHK". -/
theorem c6_bathrooms_witness :
    (App.compute_areas ("4 BHK") 1200 ("No") ("No") noAnswers).bathrooms = 3 :=
  (c6_bathrooms ("4 BHK") 1200 ("No") ("No") noAnswers).2.2.2 (by decide)

/-- C7: the floor count is 2 when the bedroom count is at least 3 and 1
otherwise, and the staircase total is 75 times the floor count. -/
theorem c7_floors_stairs (b : String) (p : ℚ) (w r : String) (a : Answers) :
    (3 ≤ (App.compute_areas b p w r a).bedrooms →
        (App.compute_areas b p w r a).floors = 2)
    ∧ ((App.compute_areas b p w r a).bedrooms < 3 →
        (App.compute_areas b p w r a).floors = 1)
    ∧ (App.compute_areas b p w r a).stair_total
        = 75 * (App.compute_areas b p w r a).floors := by
  have hb : (App.compute_areas b p w r a).bedrooms = App.bedrooms_of b := rfl
  have hf : (App.compute_areas b p w r a).floors
      = App.floors_of (App.bedrooms_of b) := rfl
  refine ⟨?_, ?_, rfl⟩ <;> intro h <;> rw [hb] at h <;> rw [hf] <;>
    unfold App.floors_of <;> split_ifs with hc <;> first | rfl | omega

/-- C7 witness: the floor rule applied at "3 BHK". -/
theorem c7_floors_stairs_witness :
    (App.compute_areas ("3 BHK") 1200 ("No") ("No") noAnswers).floors = 2 :=
  (c7_floors_stairs ("3 BHK") 1200 ("No") ("No") noAnswers).1 (by decide)

/-- C8: the car-park size (constant 150) contributes to nothing:
carpet_without_stair is exactly the seven-component sum with no car-park
term, and each downstream field is computed only from that sum, the
stair total and the plot size. -/
theorem c8_car_park_excluded (b : String) (p : ℚ) (w r : String) (a : Answers) :
    (App.compute_areas b p w r a).carpet_without_stair
        = (App.compute_areas b p w r a).bedrooms * 150
          + (App.compute_areas b p w r a).bathrooms * 50
          + (App.compute_areas b p w r a).sizes.living
          + (App.compute_areas b p w r a).sizes.kitchen
          + (App.compute_areas b p w r a).sizes.workspace
          + (App.compute_areas b p w r a).sizes.rental
          + (App.compute_areas b p w r a).sizes.outdoor
    ∧ (App.compute_areas b p w r a).sizes.car_park = 150
    ∧ (App.compute_areas b p w r a).carpet_area
        = (App.compute_areas b p w r a).carpet_without_stair
          + (App.compute_areas b p w r a).stair_total
    ∧ (App.compute_areas b p w r a).built_up_area
        = pyRound (fmul (intToFloat ((App.compute_areas b p w r a).carpet_area)) c1_10)
    ∧ (App.compute_areas b p w r a).plinth_area = pyRound (fmul p c0_8)
    ∧ (App.compute_areas b p w r a).cost_low
        = ((App.compute_areas b p w r a).built_up_area
            + (App.compute_areas b p w r a).plinth_area) * 2500
    ∧ (App.compute_areas b p w r a).cost_high
        = pyRound (fmul (intToFloat ((App.compute_areas b p w r a).cost_low)) c1_10) :=
  ⟨rfl, rfl, rfl, rfl, rfl, rfl, rfl⟩

/-- C10: the two implementations are extensionally equal: on every input
the src/app.py transcription and the src/main.py transcription return
identical result records. -/
theorem c10_app_eq_main (b : String) (p : ℚ) (w r : String) (a : Answers) :
    App.compute_areas b p w r a = Main.compute_areas b p w r a := rfl

end KnowYourHome
